import Mathlib

/-!
Verification of `src/python/train_min.py`, a CLI wrapper that validates a
pair of audio files, shells out to an external trainer, and exports the
resulting model checkpoint.

The embedding is a shallow one: the script's three functions
(`prepare_data`, `train`, `export_aidax`) and `main` become Lean
functions that thread an explicit machine state (filesystem, created
directories, process environment, and an event trace recording child
process spawns, prints, directory creation, and file copies).  Behaviour
of the external world (the loaded audio, the optional helper module, the
two child processes and their effects on the filesystem) is supplied by
a `World` oracle, so theorems quantify over every possible behaviour of
the externals.  Exceptions become `Except` errors that carry the state
at the point of the raise, matching Python's propagation of side effects
past an exception.
-/

namespace TrainMin

/-- Byte contents of a file, as produced by the Python level reads/copies. -/
abbrev Bytes := List Nat

/-- A process environment or filesystem: an association list from keys
(variable names / paths) to values. -/
abbrev Env := List (String × String)

/-- The filesystem: paths mapped to byte contents. -/
abbrev Fs := List (String × Bytes)

/-- Set a key in an association list, replacing the first existing binding
(like `d[k] = v` on a Python `dict` / `os.environ` copy, and like writing a
file at a path). -/
def setKV {β : Type} (m : List (String × β)) (k : String) (v : β) :
    List (String × β) :=
  match m with
  | [] => [(k, v)]
  | (k', v') :: rest => if k' == k then (k, v) :: rest else (k', v') :: setKV rest k v

/-- `os.path.join` for the relative, slash-free components this script uses. -/
def pathJoin (a b : String) : String := a ++ "/" ++ b

/-- A loaded audio file as returned by `librosa.load(..., sr=None, mono=True)`:
only its sample count (`len(aud)`) and sample rate matter to the script. -/
structure Wave where
  len : Nat
  sr : Nat
deriving Repr, DecidableEq

/-- Duration of a loaded file in seconds, `len(aud)/sr`. -/
def Wave.dur (a : Wave) : ℚ := (a.len : ℚ) / (a.sr : ℚ)

/-- Observable events of a run, in order: child process spawns (with full
command, working directory and child environment), stderr warnings, stdout
prints, `os.makedirs` calls, and `shutil.copyfile` calls. -/
inductive Event where
  | spawn (cmd : List String) (cwd : String) (env : Env)
  | warn (msg : String)
  | echo (msg : String)
  | mkdir (path : String)
  | copy (src dst : String)
deriving Repr, DecidableEq

/-- The Python exceptions the script can raise. -/
inductive Err where
  | assertError (msg : String)
  | keyError (key : String)
  | calledProcessError (cmd : List String) (returncode : Nat)
  | fileNotFound (path : String)
deriving Repr, DecidableEq

/-- Mutable machine state threaded through the run. -/
structure St where
  fs : Fs
  dirs : List String
  environ : Env
  trace : List Event

/-- Oracle for everything outside the script: the two loaded audio files,
whether the optional `colab_functions` helper raises (`some msg`) or
succeeds (`none`), its filesystem effect on success, CUDA availability,
and for each child process its exit code and filesystem effect. -/
structure World where
  inputWav : Wave
  outputWav : Wave
  helperErr : Option String
  helperEffect : Fs → Fs
  cuda : Bool
  trainExit : Nat
  trainEffect : Fs → Fs
  convertExit : Nat
  convertEffect : Fs → Fs

/-- `shutil.copyfile(src, dst)`: read `src` (raising `FileNotFoundError`
when absent), write its bytes at `dst`, and record the copy. -/
def copyfile (st : St) (src dst : String) : Except Err Unit × St :=
  match st.fs.lookup src with
  | some b =>
      (Except.ok (), { st with fs := setKV st.fs dst b,
                               trace := st.trace ++ [Event.copy src dst] })
  | none => (Except.error (Err.fileNotFound src), st)

/-- `prepare_data(data_dir)` from `train_min.py`: load the two wavs, assert
the duration difference is under 3.0 seconds, assert equal sample rates,
best-effort call the optional helper (exceptions are downgraded to a
stderr warning), and return the fixed tag `"amp"`. -/
def prepare_data (w : World) (data_dir : String) (st : St) :
    Except Err String × St :=
  let _inp := pathJoin data_dir "input.wav"
  let _out := pathJoin data_dir "output.wav"
  let i := w.inputWav
  let t := w.outputWav
  if |t.dur - i.dur| < 3 then
    if i.sr == t.sr then
      match w.helperErr with
      | none =>
          (Except.ok "amp", { st with fs := w.helperEffect st.fs })
      | some e =>
          (Except.ok "amp",
           { st with trace := st.trace ++
               [Event.warn ("[warn] prep helpers missing/failed (" ++ e ++
                            "); continuing with raw wavs.")] })
    else (Except.error (Err.assertError "Sample rates differ"), st)
  else (Except.error (Err.assertError "Input/Target lengths differ too much"), st)

/-- The fixed model-type lookup table from `train`. -/
def cfgTable : List (String × String) :=
  [("Lightest", "LSTM-8"), ("Light", "LSTM-12"),
   ("Standard", "LSTM-16"), ("Heavy", "LSTM-20")]

/-- The argument list `train` builds for the training child process. -/
def trainCmd (cfg file_name : String) (sc epochs : Nat) : List String :=
  ["python3", "dist_model_recnet.py", "-l", cfg, "-fn", file_name,
   "-sc", toString sc, "-eps", toString epochs]

/-- `train(trainer_dir, file_name, model_type, skip, epochs)` from
`train_min.py`: resolve the model type through the fixed table (a failed
dict lookup raises `KeyError`), copy the environment and force the two
variables in the copy only, print and spawn the training command in the
trainer directory, raise `CalledProcessError` on a non-zero exit, and
otherwise return `<trainer>/Results/<file_name>_<cfg>-<sc>`. -/
def train (w : World) (trainer_dir file_name model_type : String)
    (skip : Bool) (epochs : Nat) (st : St) : Except Err String × St :=
  match cfgTable.lookup model_type with
  | none => (Except.error (Err.keyError model_type), st)
  | some cfg =>
    let sc : Nat := if skip then 1 else 0
    let env := setKV (setKV st.environ "TF_CPP_MIN_LOG_LEVEL" "3")
                 "CUBLAS_WORKSPACE_CONFIG" ":4096:2"
    let cmd := trainCmd cfg file_name sc epochs
    let st := { st with trace := st.trace ++
        [Event.echo (">> " ++ String.intercalate " " cmd),
         Event.spawn cmd trainer_dir env] }
    let st := { st with fs := w.trainEffect st.fs }
    if w.trainExit = 0 then
      (Except.ok (pathJoin (pathJoin trainer_dir "Results")
         (file_name ++ "_" ++ cfg ++ "-" ++ toString sc)), st)
    else (Except.error (Err.calledProcessError cmd w.trainExit), st)

/-- The argument list `export_aidax` builds for the conversion child. -/
def convertCmd (best : String) : List String :=
  ["python3", "modelToKeras.py", "-lm", best]

/-- `export_aidax(trainer_dir, model_dir, out_dir)` from `train_min.py`:
spawn `modelToKeras.py -lm <model_dir>/model_best.json` in the trainer
directory with the (uncopied, unmodified) inherited environment, raise on
a non-zero exit, create the output directory (`exist_ok=True`, so it
never fails), and copy `<trainer>/model_keras.json` to
`<out_dir>/model-lstm.aidax` and the best-model JSON to
`<out_dir>/model-lstm.nam`, then print a confirmation. -/
def export_aidax (w : World) (trainer_dir model_dir out_dir : String)
    (st : St) : Except Err Unit × St :=
  let best := pathJoin model_dir "model_best.json"
  let cmd := convertCmd best
  let st := { st with trace := st.trace ++ [Event.spawn cmd trainer_dir st.environ] }
  let st := { st with fs := w.convertEffect st.fs }
  if w.convertExit = 0 then
    let keras_json := pathJoin trainer_dir "model_keras.json"
    let st := { st with dirs := out_dir :: st.dirs,
                        trace := st.trace ++ [Event.mkdir out_dir] }
    let aidax := pathJoin out_dir "model-lstm.aidax"
    match copyfile st keras_json aidax with
    | (Except.error e, st) => (Except.error e, st)
    | (Except.ok _, st) =>
      match copyfile st best (pathJoin out_dir "model-lstm.nam") with
      | (Except.error e, st) => (Except.error e, st)
      | (Except.ok _, st) =>
        (Except.ok (),
         { st with trace := st.trace ++ [Event.echo ("✅ wrote: " ++ aidax)] })
  else (Except.error (Err.calledProcessError cmd w.convertExit), st)

/-- `main()` after argument parsing: print the device line, then run
`prepare_data`, `train`, `export_aidax` in sequence, propagating any
exception (which makes the process exit non-zero). -/
def main (w : World) (data_dir trainer model_type : String) (skip : Bool)
    (epochs : Nat) (out_dir : String) (st : St) : Except Err Unit × St :=
  let st := { st with trace := st.trace ++
      [Event.echo ("Using device: " ++ (if w.cuda then "cuda" else "cpu"))] }
  match prepare_data w data_dir st with
  | (Except.error e, st) => (Except.error e, st)
  | (Except.ok fn, st) =>
    match train w trainer fn model_type skip epochs st with
    | (Except.error e, st) => (Except.error e, st)
    | (Except.ok model_dir, st) =>
      export_aidax w trainer model_dir out_dir st

/-- Is an event a child-process spawn? -/
def Event.isSpawn : Event → Bool
  | Event.spawn _ _ _ => true
  | _ => false

/-- Is an event a file copy? -/
def Event.isCopy : Event → Bool
  | Event.copy _ _ => true
  | _ => false

/-- The filesystem after `prepare_data` succeeds: the helper's effect is
applied only when the helper ran without raising. -/
def prepFs (w : World) (fs : Fs) : Fs :=
  match w.helperErr with
  | none => w.helperEffect fs
  | some _ => fs

/-- The stderr events `prepare_data` emits: one warning when the helper
raised, nothing otherwise. -/
def prepTrace (w : World) : List Event :=
  match w.helperErr with
  | none => []
  | some e =>
      [Event.warn ("[warn] prep helpers missing/failed (" ++ e ++
         "); continuing with raw wavs.")]

/-- A world with a valid audio pair (1s and 2s at 44.1 kHz), an absent
helper module, and both children succeeding without touching the disk. -/
def wOK : World :=
  { inputWav := { len := 44100, sr := 44100 },
    outputWav := { len := 88200, sr := 44100 },
    helperErr := some "No module named colab_functions",
    helperEffect := id, cuda := false,
    trainExit := 0, trainEffect := id,
    convertExit := 0, convertEffect := id }

/-- A world whose audio pair has a 9-second duration mismatch and
differing sample rates. -/
def wLen : World :=
  { wOK with inputWav := { len := 22050, sr := 22050 },
             outputWav := { len := 441000, sr := 44100 } }

/-- A world whose audio pair has equal durations but differing sample
rates. -/
def wSr : World :=
  { wOK with inputWav := { len := 44100, sr := 44100 },
             outputWav := { len := 48000, sr := 48000 } }

/-- A world with a valid audio pair whose training child exits with
status 7. -/
def wFail : World := { wOK with trainExit := 7 }

/-- A demo filesystem holding the two files export reads. -/
def fsDemo : Fs :=
  [(pathJoin "t" "model_keras.json", [1, 2]),
   (pathJoin (pathJoin (pathJoin "t" "Results") "amp_LSTM-16-0")
      "model_best.json", [3, 4, 5])]

/-- An empty initial machine state over a given filesystem. -/
def stInit (fs : Fs) : St := { fs := fs, dirs := [], environ := [], trace := [] }

/-! ### Association-list and string helper lemmas -/

theorem lookup_setKV_self {β : Type} (m : List (String × β)) (k : String) (v : β) :
    (setKV m k v).lookup k = some v := by
  induction m with
  | nil => simp [setKV, List.lookup]
  | cons p rest ih =>
    obtain ⟨k', v'⟩ := p
    by_cases h : k' = k
    · simp [setKV, h, List.lookup]
    · have hb : (k == k') = false := beq_eq_false_iff_ne.mpr (Ne.symm h)
      have hb' : (k' == k) = false := beq_eq_false_iff_ne.mpr h
      simp [setKV, h, hb', List.lookup, hb, ih]

theorem lookup_setKV_ne {β : Type} (m : List (String × β)) (k k₂ : String) (v : β)
    (h : k₂ ≠ k) : (setKV m k v).lookup k₂ = m.lookup k₂ := by
  induction m with
  | nil =>
    have hb : (k₂ == k) = false := beq_eq_false_iff_ne.mpr h
    simp [setKV, List.lookup, hb]
  | cons p rest ih =>
    obtain ⟨k', v'⟩ := p
    by_cases hk : k' = k
    · subst hk
      have hb : (k₂ == k') = false := beq_eq_false_iff_ne.mpr h
      simp [setKV, List.lookup, hb]
    · have hbk : (k' == k) = false := beq_eq_false_iff_ne.mpr hk
      by_cases h2 : k₂ = k'
      · subst h2
        simp [setKV, hk, hbk, List.lookup]
      · have hb2 : (k₂ == k') = false := beq_eq_false_iff_ne.mpr h2
        simp [setKV, hk, hbk, List.lookup, h2, hb2, ih]

theorem append_ne_of_last_ne (a b : String) (s t : String)
    (hs : s.data ≠ []) (ht : t.data ≠ [])
    (h : s.data.getLast? ≠ t.data.getLast?) : a ++ s ≠ b ++ t := by
  intro he
  apply h
  have hd : a.data ++ s.data = b.data ++ t.data := by
    have := congrArg String.data he
    simpa using this
  calc s.data.getLast? = (a.data ++ s.data).getLast? :=
        (List.getLast?_append_of_ne_nil _ hs).symm
    _ = (b.data ++ t.data).getLast? := by rw [hd]
    _ = t.data.getLast? := List.getLast?_append_of_ne_nil _ ht

/-! ### Behaviour of `prepare_data` -/

theorem prepare_data_err_len (w : World)
    (h : 3 ≤ |w.outputWav.dur - w.inputWav.dur|) (d : String) (st : St) :
    prepare_data w d st =
      (Except.error (Err.assertError "Input/Target lengths differ too much"), st) := by
  simp [prepare_data, not_lt.mpr h]

theorem prepare_data_err_sr (w : World)
    (hd : |w.outputWav.dur - w.inputWav.dur| < 3)
    (h : w.inputWav.sr ≠ w.outputWav.sr) (d : String) (st : St) :
    prepare_data w d st =
      (Except.error (Err.assertError "Sample rates differ"), st) := by
  have hb : (w.inputWav.sr == w.outputWav.sr) = false := beq_eq_false_iff_ne.mpr h
  simp [prepare_data, hd, hb]

theorem prepare_data_fst_ok (w : World)
    (hd : |w.outputWav.dur - w.inputWav.dur| < 3)
    (hsr : w.inputWav.sr = w.outputWav.sr) (d : String) (st : St) :
    (prepare_data w d st).1 = Except.ok "amp" := by
  have hb : (w.inputWav.sr == w.outputWav.sr) = true := beq_iff_eq.mpr hsr
  cases hh : w.helperErr <;> simp [prepare_data, hd, hb, hh]

/-- C10: in `prepare_data` the duration-difference assertion is checked
before the sample-rate assertion, so a ≥ 3.0 s duration mismatch raises the
length error even when the sample rates also differ, and the sample-rate
error is raised only when the duration difference is under 3.0 s. -/
theorem assert_order (w : World) (d : String) (st : St) :
    (3 ≤ |w.outputWav.dur - w.inputWav.dur| →
      prepare_data w d st =
        (Except.error (Err.assertError "Input/Target lengths differ too much"), st)) ∧
    (|w.outputWav.dur - w.inputWav.dur| < 3 →
      w.inputWav.sr ≠ w.outputWav.sr →
      prepare_data w d st =
        (Except.error (Err.assertError "Sample rates differ"), st)) :=
  ⟨fun h => prepare_data_err_len w h d st,
   fun hd h => prepare_data_err_sr w hd h d st⟩

theorem assert_order_witness :
    prepare_data wLen "d" (stInit []) =
      (Except.error (Err.assertError "Input/Target lengths differ too much"),
       stInit []) ∧
    prepare_data wSr "d" (stInit []) =
      (Except.error (Err.assertError "Sample rates differ"), stInit []) :=
  ⟨(assert_order wLen "d" (stInit [])).1
      (by norm_num [wLen, wOK, Wave.dur]),
   (assert_order wSr "d" (stInit [])).2
      (by norm_num [wSr, wOK, Wave.dur]) (by decide)⟩

/-- C3: with equal sample rates and a duration difference under 3.0 s,
`prepare_data` succeeds and returns the fixed tag `"amp"`, for every
behaviour of the optional helper (success, failure, or absence, all ranged
over by the `World`). -/
theorem prepare_data_ok_amp (w : World) (d : String) (st : St)
    (hd : |w.outputWav.dur - w.inputWav.dur| < 3)
    (hsr : w.inputWav.sr = w.outputWav.sr) :
    (prepare_data w d st).1 = Except.ok "amp" :=
  prepare_data_fst_ok w hd hsr d st

theorem prepare_data_ok_amp_witness :
    (prepare_data wOK "d" (stInit [])).1 = Except.ok "amp" :=
  prepare_data_ok_amp wOK "d" (stInit [])
    (by norm_num [wOK, Wave.dur]) (by decide)

/-- C8: when the optional helper raises (with any message, including a
failed import), `prepare_data` catches the exception, appends exactly one
warning on the error stream, leaves the filesystem untouched, and still
returns `"amp"`: the run is never aborted by the helper. -/
theorem helper_failure_warn_continue (w : World) (d : String) (st : St)
    (e : String)
    (hd : |w.outputWav.dur - w.inputWav.dur| < 3)
    (hsr : w.inputWav.sr = w.outputWav.sr)
    (hh : w.helperErr = some e) :
    prepare_data w d st =
      (Except.ok "amp",
       { st with trace := st.trace ++
           [Event.warn ("[warn] prep helpers missing/failed (" ++ e ++
                        "); continuing with raw wavs.")] }) := by
  have hb : (w.inputWav.sr == w.outputWav.sr) = true := beq_iff_eq.mpr hsr
  simp [prepare_data, hd, hb, hh]

theorem helper_failure_warn_continue_witness :
    prepare_data wOK "d" (stInit []) =
      (Except.ok "amp",
       { stInit [] with trace :=
           [Event.warn ("[warn] prep helpers missing/failed (" ++
              "No module named colab_functions" ++
              "); continuing with raw wavs.")] }) := by
  have h := helper_failure_warn_continue wOK "d" (stInit [])
    "No module named colab_functions"
    (by norm_num [wOK, Wave.dur]) (by decide) (by decide)
  simpa [stInit] using h

theorem main_of_prepare_error (w : World)
    (data_dir trainer model_type : String) (skip : Bool) (epochs : Nat)
    (out_dir : String) (fs0 : Fs) (dirs0 : List String) (env0 : Env)
    (e : Err) (hp : ∀ st, prepare_data w data_dir st = (Except.error e, st)) :
    main w data_dir trainer model_type skip epochs out_dir
        ⟨fs0, dirs0, env0, []⟩ =
      (Except.error e,
       ⟨fs0, dirs0, env0,
        [Event.echo ("Using device: " ++ (if w.cuda then "cuda" else "cpu"))]⟩) := by
  unfold main
  dsimp only
  rw [hp]
  simp

/-- C2: whenever the sample rates differ or the duration difference is at
least 3.0 s, the whole run aborts with an `AssertionError` and no child
process is ever spawned. -/
theorem prepare_mismatch_aborts (w : World)
    (data_dir trainer model_type : String) (skip : Bool) (epochs : Nat)
    (out_dir : String) (fs0 : Fs) (dirs0 : List String) (env0 : Env)
    (h : w.inputWav.sr ≠ w.outputWav.sr ∨
      3 ≤ |w.outputWav.dur - w.inputWav.dur|) :
    (∃ m, (main w data_dir trainer model_type skip epochs out_dir
        ⟨fs0, dirs0, env0, []⟩).1 = Except.error (Err.assertError m)) ∧
    (main w data_dir trainer model_type skip epochs out_dir
        ⟨fs0, dirs0, env0, []⟩).2.trace.filter Event.isSpawn = [] := by
  by_cases hd : |w.outputWav.dur - w.inputWav.dur| < 3
  · have hsr : w.inputWav.sr ≠ w.outputWav.sr := by
      rcases h with h | h
      · exact h
      · exact absurd h (not_le.mpr hd)
    have hm := main_of_prepare_error w data_dir trainer model_type skip epochs
      out_dir fs0 dirs0 env0 _ (prepare_data_err_sr w hd hsr data_dir)
    rw [hm]
    exact ⟨⟨"Sample rates differ", rfl⟩, by simp [Event.isSpawn]⟩
  · have hlen : 3 ≤ |w.outputWav.dur - w.inputWav.dur| := not_lt.mp hd
    have hm := main_of_prepare_error w data_dir trainer model_type skip epochs
      out_dir fs0 dirs0 env0 _ (prepare_data_err_len w hlen data_dir)
    rw [hm]
    exact ⟨⟨"Input/Target lengths differ too much", rfl⟩, by simp [Event.isSpawn]⟩

theorem prepare_mismatch_aborts_witness :
    (∃ m, (main wSr "d" "t" "Standard" false 200 "res"
        ⟨[], [], [], []⟩).1 = Except.error (Err.assertError m)) ∧
    (main wSr "d" "t" "Standard" false 200 "res"
        ⟨[], [], [], []⟩).2.trace.filter Event.isSpawn = [] :=
  prepare_mismatch_aborts wSr "d" "t" "Standard" false 200 "res" [] [] []
    (Or.inl (by decide))

/-! ### Behaviour of `train` -/

theorem cfgTable_lookup_none (s : String)
    (h : s ∉ ["Lightest", "Light", "Standard", "Heavy"]) :
    cfgTable.lookup s = none := by
  simp only [List.mem_cons, not_or, List.not_mem_nil] at h
  obtain ⟨h1, h2, h3, h4, -⟩ := h
  have b1 : (s == "Lightest") = false := beq_eq_false_iff_ne.mpr h1
  have b2 : (s == "Light") = false := beq_eq_false_iff_ne.mpr h2
  have b3 : (s == "Standard") = false := beq_eq_false_iff_ne.mpr h3
  have b4 : (s == "Heavy") = false := beq_eq_false_iff_ne.mpr h4
  simp [cfgTable, List.lookup, b1, b2, b3, b4]

/-- C4: the model-type table maps exactly `Lightest ↦ LSTM-8`,
`Light ↦ LSTM-12`, `Standard ↦ LSTM-16`, `Heavy ↦ LSTM-20`, and `train`
rejects every other label with a `KeyError`. -/
theorem cfg_table_exact :
    cfgTable.lookup "Lightest" = some "LSTM-8" ∧
    cfgTable.lookup "Light" = some "LSTM-12" ∧
    cfgTable.lookup "Standard" = some "LSTM-16" ∧
    cfgTable.lookup "Heavy" = some "LSTM-20" ∧
    ∀ (s : String), s ∉ ["Lightest", "Light", "Standard", "Heavy"] →
      ∀ (w : World) (trainer fn : String) (skip : Bool) (epochs : Nat) (st : St),
        (train w trainer fn s skip epochs st).1 =
          Except.error (Err.keyError s) := by
  refine ⟨by decide, by decide, by decide, by decide,
    fun s hs w trainer fn skip epochs st => ?_⟩
  unfold train
  rw [cfgTable_lookup_none s hs]

theorem cfg_table_exact_witness :
    cfgTable.lookup "Heavy" = some "LSTM-20" ∧
    (train wOK "t" "amp" "Huge" false 200 (stInit [])).1 =
      Except.error (Err.keyError "Huge") :=
  ⟨cfg_table_exact.2.2.2.1,
   cfg_table_exact.2.2.2.2 "Huge" (by decide) wOK "t" "amp" false 200 (stInit [])⟩

/-- C5: `train` spawns exactly
`python3 dist_model_recnet.py -l <cfg> -fn <fn> -sc <0|1> -eps <epochs>`
(with `-sc` being `"1"` iff the skip flag is set), in the trainer directory,
in an environment that is the caller's with `TF_CPP_MIN_LOG_LEVEL=3` and
`CUBLAS_WORKSPACE_CONFIG=:4096:2` forced. -/
theorem train_spawn_shape (w : World) (trainer fn mt cfg : String)
    (skip : Bool) (epochs : Nat) (st : St)
    (h : cfgTable.lookup mt = some cfg) :
    (train w trainer fn mt skip epochs st).2.trace =
      st.trace ++
        [Event.echo (">> " ++ String.intercalate " "
            (trainCmd cfg fn (if skip then 1 else 0) epochs)),
         Event.spawn
           ["python3", "dist_model_recnet.py", "-l", cfg, "-fn", fn,
            "-sc", (if skip then "1" else "0"), "-eps", toString epochs]
           trainer
           (setKV (setKV st.environ "TF_CPP_MIN_LOG_LEVEL" "3")
              "CUBLAS_WORKSPACE_CONFIG" ":4096:2")] ∧
    (setKV (setKV st.environ "TF_CPP_MIN_LOG_LEVEL" "3")
        "CUBLAS_WORKSPACE_CONFIG" ":4096:2").lookup "TF_CPP_MIN_LOG_LEVEL" =
      some "3" ∧
    (setKV (setKV st.environ "TF_CPP_MIN_LOG_LEVEL" "3")
        "CUBLAS_WORKSPACE_CONFIG" ":4096:2").lookup "CUBLAS_WORKSPACE_CONFIG" =
      some ":4096:2" := by
  have hsc : toString (if skip then (1 : Nat) else 0) =
      (if skip then "1" else "0") := by
    cases skip <;> rfl
  refine ⟨?_, ?_, lookup_setKV_self _ _ _⟩
  · unfold train
    rw [h]
    dsimp only
    by_cases he : w.trainExit = 0 <;> simp [he, trainCmd, hsc]
  · rw [lookup_setKV_ne _ _ _ _ (by decide)]
    exact lookup_setKV_self _ _ _

theorem train_spawn_shape_witness :
    (train wOK "t" "amp" "Standard" true 3 (stInit [])).2.trace =
      (stInit []).trace ++
        [Event.echo (">> " ++ String.intercalate " "
            (trainCmd "LSTM-16" "amp" (if true then 1 else 0) 3)),
         Event.spawn
           ["python3", "dist_model_recnet.py", "-l", "LSTM-16", "-fn", "amp",
            "-sc", (if true then "1" else "0"), "-eps", toString 3]
           "t"
           (setKV (setKV (stInit []).environ "TF_CPP_MIN_LOG_LEVEL" "3")
              "CUBLAS_WORKSPACE_CONFIG" ":4096:2")] ∧
    (setKV (setKV (stInit []).environ "TF_CPP_MIN_LOG_LEVEL" "3")
        "CUBLAS_WORKSPACE_CONFIG" ":4096:2").lookup "TF_CPP_MIN_LOG_LEVEL" =
      some "3" ∧
    (setKV (setKV (stInit []).environ "TF_CPP_MIN_LOG_LEVEL" "3")
        "CUBLAS_WORKSPACE_CONFIG" ":4096:2").lookup "CUBLAS_WORKSPACE_CONFIG" =
      some ":4096:2" :=
  train_spawn_shape wOK "t" "amp" "Standard" "LSTM-16" true 3 (stInit [])
    (by decide)

/-- C7: on a zero training exit, `train` returns
`<trainer>/Results/<fn>_<cfg>-<sc>`, a path composed purely from its
arguments (the state, filesystem, and the trainer's effect on it are
universally quantified and do not appear in the result). -/
theorem train_result_path (w : World) (trainer fn mt cfg : String)
    (skip : Bool) (epochs : Nat) (st : St)
    (h : cfgTable.lookup mt = some cfg) (he : w.trainExit = 0) :
    (train w trainer fn mt skip epochs st).1 =
      Except.ok (pathJoin (pathJoin trainer "Results")
        (fn ++ "_" ++ cfg ++ "-" ++ (if skip then "1" else "0"))) := by
  have hsc : toString (if skip then (1 : Nat) else 0) =
      (if skip then "1" else "0") := by
    cases skip <;> rfl
  unfold train
  rw [h]
  dsimp only
  simp [he, hsc]

theorem train_result_path_witness :
    (train wOK "t" "amp" "Standard" false 200 (stInit [])).1 =
      Except.ok (pathJoin (pathJoin "t" "Results")
        ("amp" ++ "_" ++ "LSTM-16" ++ "-" ++ (if false then "1" else "0"))) :=
  train_result_path wOK "t" "amp" "Standard" "LSTM-16" false 200 (stInit [])
    (by decide) rfl

/-! ### Composition lemmas for `main` -/

theorem prepare_data_ok_eq (w : World)
    (hd : |w.outputWav.dur - w.inputWav.dur| < 3)
    (hsr : w.inputWav.sr = w.outputWav.sr) (d : String) (st : St) :
    prepare_data w d st =
      (Except.ok "amp",
       { st with fs := prepFs w st.fs, trace := st.trace ++ prepTrace w }) := by
  have hb : (w.inputWav.sr == w.outputWav.sr) = true := beq_iff_eq.mpr hsr
  cases hh : w.helperErr <;> simp [prepare_data, prepFs, prepTrace, hd, hb, hh]

theorem prepTrace_filter_spawn (w : World) :
    (prepTrace w).filter Event.isSpawn = [] := by
  cases hh : w.helperErr <;> simp [prepTrace, hh, Event.isSpawn]

theorem prepTrace_filter_copy (w : World) :
    (prepTrace w).filter Event.isCopy = [] := by
  cases hh : w.helperErr <;> simp [prepTrace, hh, Event.isCopy]

theorem train_ok_eq (w : World) (trainer fn mt cfg : String) (skip : Bool)
    (epochs : Nat) (st : St) (hcfg : cfgTable.lookup mt = some cfg)
    (het : w.trainExit = 0) :
    train w trainer fn mt skip epochs st =
      (Except.ok (pathJoin (pathJoin trainer "Results")
         (fn ++ "_" ++ cfg ++ "-" ++ (if skip then "1" else "0"))),
       { st with fs := w.trainEffect st.fs,
                 trace := st.trace ++
                   [Event.echo (">> " ++ String.intercalate " "
                      (trainCmd cfg fn (if skip then 1 else 0) epochs)),
                    Event.spawn (trainCmd cfg fn (if skip then 1 else 0) epochs)
                      trainer
                      (setKV (setKV st.environ "TF_CPP_MIN_LOG_LEVEL" "3")
                         "CUBLAS_WORKSPACE_CONFIG" ":4096:2")] }) := by
  have hsc : toString (if skip then (1 : Nat) else 0) =
      (if skip then "1" else "0") := by
    cases skip <;> rfl
  unfold train
  rw [hcfg]
  dsimp only
  simp [het, hsc]

theorem train_err_eq (w : World) (trainer fn mt cfg : String) (skip : Bool)
    (epochs : Nat) (st : St) (hcfg : cfgTable.lookup mt = some cfg)
    (het : w.trainExit ≠ 0) :
    train w trainer fn mt skip epochs st =
      (Except.error (Err.calledProcessError
         (trainCmd cfg fn (if skip then 1 else 0) epochs) w.trainExit),
       { st with fs := w.trainEffect st.fs,
                 trace := st.trace ++
                   [Event.echo (">> " ++ String.intercalate " "
                      (trainCmd cfg fn (if skip then 1 else 0) epochs)),
                    Event.spawn (trainCmd cfg fn (if skip then 1 else 0) epochs)
                      trainer
                      (setKV (setKV st.environ "TF_CPP_MIN_LOG_LEVEL" "3")
                         "CUBLAS_WORKSPACE_CONFIG" ":4096:2")] }) := by
  unfold train
  rw [hcfg]
  dsimp only
  simp [het]

theorem main_ok_eq (w : World) (data_dir trainer mt cfg : String)
    (skip : Bool) (epochs : Nat) (out_dir : String) (fs0 : Fs)
    (dirs0 : List String) (env0 : Env)
    (hd : |w.outputWav.dur - w.inputWav.dur| < 3)
    (hsr : w.inputWav.sr = w.outputWav.sr)
    (hcfg : cfgTable.lookup mt = some cfg)
    (het : w.trainExit = 0) :
    main w data_dir trainer mt skip epochs out_dir ⟨fs0, dirs0, env0, []⟩ =
      export_aidax w trainer
        (pathJoin (pathJoin trainer "Results")
          ("amp" ++ "_" ++ cfg ++ "-" ++ (if skip then "1" else "0")))
        out_dir
        { fs := w.trainEffect (prepFs w fs0), dirs := dirs0, environ := env0,
          trace :=
            [Event.echo ("Using device: " ++
               (if w.cuda then "cuda" else "cpu"))] ++ prepTrace w ++
              [Event.echo (">> " ++ String.intercalate " "
                 (trainCmd cfg "amp" (if skip then 1 else 0) epochs)),
               Event.spawn (trainCmd cfg "amp" (if skip then 1 else 0) epochs)
                 trainer
                 (setKV (setKV env0 "TF_CPP_MIN_LOG_LEVEL" "3")
                    "CUBLAS_WORKSPACE_CONFIG" ":4096:2")] } := by
  unfold main
  dsimp only
  rw [prepare_data_ok_eq w hd hsr]
  dsimp only
  rw [train_ok_eq w trainer "amp" mt cfg skip epochs _ hcfg het]
  dsimp only [List.nil_append]

theorem export_environ (w : World) (trainer model_dir out_dir : String)
    (st : St) :
    (export_aidax w trainer model_dir out_dir st).2.environ = st.environ := by
  unfold export_aidax copyfile
  dsimp only
  by_cases hec : w.convertExit = 0
  · rw [if_pos hec]
    cases hk : List.lookup (pathJoin trainer "model_keras.json")
        (w.convertEffect st.fs) with
    | none => rfl
    | some b =>
        dsimp only
        cases hb : List.lookup (pathJoin model_dir "model_best.json")
            (setKV (w.convertEffect st.fs)
              (pathJoin out_dir "model-lstm.aidax") b) with
        | none => rfl
        | some c => rfl
  · rw [if_neg hec]

theorem export_spawn_filter (w : World) (trainer model_dir out_dir : String)
    (st : St) :
    (export_aidax w trainer model_dir out_dir st).2.trace.filter Event.isSpawn =
      st.trace.filter Event.isSpawn ++
        [Event.spawn (convertCmd (pathJoin model_dir "model_best.json")) trainer
           st.environ] := by
  unfold export_aidax copyfile
  dsimp only
  by_cases hec : w.convertExit = 0
  · rw [if_pos hec]
    cases hk : List.lookup (pathJoin trainer "model_keras.json")
        (w.convertEffect st.fs) with
    | none => simp [Event.isSpawn]
    | some b =>
        dsimp only
        cases hb : List.lookup (pathJoin model_dir "model_best.json")
            (setKV (w.convertEffect st.fs)
              (pathJoin out_dir "model-lstm.aidax") b) with
        | none => simp [Event.isSpawn]
        | some c => simp [Event.isSpawn]
  · rw [if_neg hec]
    simp [Event.isSpawn]

theorem pathJoin_ne_of_last (x y a b : String) (ha : a.data ≠ [])
    (hb : b.data ≠ []) (h : a.data.getLast? ≠ b.data.getLast?) :
    pathJoin x a ≠ pathJoin y b := by
  unfold pathJoin
  exact append_ne_of_last_ne _ _ _ _ ha hb h

theorem main_trainfail_eq (w : World) (data_dir trainer mt cfg : String)
    (skip : Bool) (epochs : Nat) (out_dir : String) (fs0 : Fs)
    (dirs0 : List String) (env0 : Env)
    (hd : |w.outputWav.dur - w.inputWav.dur| < 3)
    (hsr : w.inputWav.sr = w.outputWav.sr)
    (hcfg : cfgTable.lookup mt = some cfg)
    (het : w.trainExit ≠ 0) :
    main w data_dir trainer mt skip epochs out_dir ⟨fs0, dirs0, env0, []⟩ =
      (Except.error (Err.calledProcessError
         (trainCmd cfg "amp" (if skip then 1 else 0) epochs) w.trainExit),
       { fs := w.trainEffect (prepFs w fs0), dirs := dirs0, environ := env0,
         trace :=
           [Event.echo ("Using device: " ++
              (if w.cuda then "cuda" else "cpu"))] ++ prepTrace w ++
             [Event.echo (">> " ++ String.intercalate " "
                (trainCmd cfg "amp" (if skip then 1 else 0) epochs)),
              Event.spawn (trainCmd cfg "amp" (if skip then 1 else 0) epochs)
                trainer
                (setKV (setKV env0 "TF_CPP_MIN_LOG_LEVEL" "3")
                   "CUBLAS_WORKSPACE_CONFIG" ":4096:2")] }) := by
  unfold main
  dsimp only
  rw [prepare_data_ok_eq w hd hsr]
  dsimp only
  rw [train_err_eq w trainer "amp" mt cfg skip epochs _ hcfg het]
  dsimp only [List.nil_append]

/-- C6: if the training child exits non-zero, `main` propagates the
`CalledProcessError` unhandled (a non-zero process exit), the only child
ever spawned is the trainer — `modelToKeras.py` is never launched — and no
file copy is performed. -/
theorem train_failure_no_export (w : World)
    (data_dir trainer mt cfg : String) (skip : Bool) (epochs : Nat)
    (out_dir : String) (fs0 : Fs) (dirs0 : List String) (env0 : Env)
    (hd : |w.outputWav.dur - w.inputWav.dur| < 3)
    (hsr : w.inputWav.sr = w.outputWav.sr)
    (hcfg : cfgTable.lookup mt = some cfg)
    (het : w.trainExit ≠ 0) :
    (main w data_dir trainer mt skip epochs out_dir
        ⟨fs0, dirs0, env0, []⟩).1 =
      Except.error (Err.calledProcessError
        (trainCmd cfg "amp" (if skip then 1 else 0) epochs) w.trainExit) ∧
    (main w data_dir trainer mt skip epochs out_dir
        ⟨fs0, dirs0, env0, []⟩).2.trace.filter Event.isSpawn =
      [Event.spawn (trainCmd cfg "amp" (if skip then 1 else 0) epochs) trainer
         (setKV (setKV env0 "TF_CPP_MIN_LOG_LEVEL" "3")
            "CUBLAS_WORKSPACE_CONFIG" ":4096:2")] ∧
    (main w data_dir trainer mt skip epochs out_dir
        ⟨fs0, dirs0, env0, []⟩).2.trace.filter Event.isCopy = [] := by
  rw [main_trainfail_eq w data_dir trainer mt cfg skip epochs out_dir fs0
    dirs0 env0 hd hsr hcfg het]
  refine ⟨rfl, ?_, ?_⟩ <;>
    simp [List.filter_append, prepTrace_filter_spawn, prepTrace_filter_copy,
      Event.isSpawn, Event.isCopy]

theorem train_failure_no_export_witness :
    (main wFail "d" "t" "Standard" false 200 "res" ⟨[], [], [], []⟩).1 =
      Except.error (Err.calledProcessError
        (trainCmd "LSTM-16" "amp" (if false then 1 else 0) 200)
        wFail.trainExit) ∧
    (main wFail "d" "t" "Standard" false 200 "res"
        ⟨[], [], [], []⟩).2.trace.filter Event.isSpawn =
      [Event.spawn (trainCmd "LSTM-16" "amp" (if false then 1 else 0) 200) "t"
         (setKV (setKV [] "TF_CPP_MIN_LOG_LEVEL" "3")
            "CUBLAS_WORKSPACE_CONFIG" ":4096:2")] ∧
    (main wFail "d" "t" "Standard" false 200 "res"
        ⟨[], [], [], []⟩).2.trace.filter Event.isCopy = [] :=
  train_failure_no_export wFail "d" "t" "Standard" "LSTM-16" false 200 "res"
    [] [] [] (by norm_num [wFail, wOK, Wave.dur]) (by decide) (by decide)
    (by decide)

/-- C9: the two forced variables live only in the copied environment
passed to the training child: after the whole run the wrapper's environment
is unchanged, and the conversion child is spawned with the wrapper's own
(inherited) environment, in which neither variable has been forced. -/
theorem env_frame_effect (w : World) (data_dir trainer mt cfg : String)
    (skip : Bool) (epochs : Nat) (out_dir : String) (fs0 : Fs)
    (dirs0 : List String) (env0 : Env)
    (hd : |w.outputWav.dur - w.inputWav.dur| < 3)
    (hsr : w.inputWav.sr = w.outputWav.sr)
    (hcfg : cfgTable.lookup mt = some cfg)
    (het : w.trainExit = 0) :
    (main w data_dir trainer mt skip epochs out_dir
        ⟨fs0, dirs0, env0, []⟩).2.environ = env0 ∧
    (main w data_dir trainer mt skip epochs out_dir
        ⟨fs0, dirs0, env0, []⟩).2.trace.filter Event.isSpawn =
      [Event.spawn (trainCmd cfg "amp" (if skip then 1 else 0) epochs) trainer
         (setKV (setKV env0 "TF_CPP_MIN_LOG_LEVEL" "3")
            "CUBLAS_WORKSPACE_CONFIG" ":4096:2"),
       Event.spawn (convertCmd (pathJoin (pathJoin (pathJoin trainer "Results")
            ("amp" ++ "_" ++ cfg ++ "-" ++ (if skip then "1" else "0")))
           "model_best.json")) trainer env0] := by
  rw [main_ok_eq w data_dir trainer mt cfg skip epochs out_dir fs0 dirs0 env0
    hd hsr hcfg het]
  constructor
  · rw [export_environ]
  · rw [export_spawn_filter]
    simp [List.filter_append, prepTrace_filter_spawn, Event.isSpawn]

theorem env_frame_effect_witness :
    (main wOK "d" "t" "Standard" false 2 "res"
        ⟨fsDemo, [], [], []⟩).2.environ = [] ∧
    (main wOK "d" "t" "Standard" false 2 "res"
        ⟨fsDemo, [], [], []⟩).2.trace.filter Event.isSpawn =
      [Event.spawn (trainCmd "LSTM-16" "amp" (if false then 1 else 0) 2) "t"
         (setKV (setKV [] "TF_CPP_MIN_LOG_LEVEL" "3")
            "CUBLAS_WORKSPACE_CONFIG" ":4096:2"),
       Event.spawn (convertCmd (pathJoin (pathJoin (pathJoin "t" "Results")
            ("amp" ++ "_" ++ "LSTM-16" ++ "-" ++ (if false then "1" else "0")))
           "model_best.json")) "t" []] :=
  env_frame_effect wOK "d" "t" "Standard" "LSTM-16" false 2 "res" fsDemo [] []
    (by norm_num [wOK, Wave.dur]) (by decide) (by decide) (by decide)

/-- C1: on a successful end-to-end run in which the model directory holds
`model_best.json` and the conversion succeeds (leaving
`<trainer>/model_keras.json` on disk), export creates the output directory
and the program's only two file writes are into it:
`model-lstm.aidax` carrying the bytes of `<trainer>/model_keras.json`, and
`model-lstm.nam` byte-identical to the model directory's
`model_best.json`. -/
theorem main_success_export_bundle (w : World)
    (data_dir trainer mt cfg : String) (skip : Bool) (epochs : Nat)
    (out_dir : String) (fs0 : Fs) (dirs0 : List String) (env0 : Env)
    (kb bb : Bytes)
    (hd : |w.outputWav.dur - w.inputWav.dur| < 3)
    (hsr : w.inputWav.sr = w.outputWav.sr)
    (hcfg : cfgTable.lookup mt = some cfg)
    (het : w.trainExit = 0) (hec : w.convertExit = 0)
    (hk : (w.convertEffect (w.trainEffect (prepFs w fs0))).lookup
        (pathJoin trainer "model_keras.json") = some kb)
    (hbb : (w.convertEffect (w.trainEffect (prepFs w fs0))).lookup
        (pathJoin (pathJoin (pathJoin trainer "Results")
           ("amp" ++ "_" ++ cfg ++ "-" ++ (if skip then "1" else "0")))
          "model_best.json") = some bb) :
    (main w data_dir trainer mt skip epochs out_dir
        ⟨fs0, dirs0, env0, []⟩).1 = Except.ok () ∧
    (main w data_dir trainer mt skip epochs out_dir
        ⟨fs0, dirs0, env0, []⟩).2.fs.lookup
        (pathJoin out_dir "model-lstm.aidax") = some kb ∧
    (main w data_dir trainer mt skip epochs out_dir
        ⟨fs0, dirs0, env0, []⟩).2.fs.lookup
        (pathJoin out_dir "model-lstm.nam") = some bb ∧
    Event.mkdir out_dir ∈ (main w data_dir trainer mt skip epochs out_dir
        ⟨fs0, dirs0, env0, []⟩).2.trace ∧
    (main w data_dir trainer mt skip epochs out_dir
        ⟨fs0, dirs0, env0, []⟩).2.trace.filter Event.isCopy =
      [Event.copy (pathJoin trainer "model_keras.json")
         (pathJoin out_dir "model-lstm.aidax"),
       Event.copy (pathJoin (pathJoin (pathJoin trainer "Results")
            ("amp" ++ "_" ++ cfg ++ "-" ++ (if skip then "1" else "0")))
           "model_best.json")
         (pathJoin out_dir "model-lstm.nam")] := by
  have hne_ba : pathJoin (pathJoin (pathJoin trainer "Results")
      ("amp" ++ "_" ++ cfg ++ "-" ++ (if skip then "1" else "0")))
      "model_best.json" ≠ pathJoin out_dir "model-lstm.aidax" :=
    pathJoin_ne_of_last _ _ _ _ (by decide) (by decide) (by decide)
  have hne_an : pathJoin out_dir "model-lstm.aidax" ≠
      pathJoin out_dir "model-lstm.nam" :=
    pathJoin_ne_of_last _ _ _ _ (by decide) (by decide) (by decide)
  rw [main_ok_eq w data_dir trainer mt cfg skip epochs out_dir fs0 dirs0 env0
    hd hsr hcfg het]
  unfold export_aidax copyfile
  dsimp only
  rw [if_pos hec, hk]
  dsimp only
  rw [lookup_setKV_ne _ _ _ _ hne_ba, hbb]
  dsimp only
  refine ⟨rfl, ?_, ?_, ?_, ?_⟩
  · rw [lookup_setKV_ne _ _ _ _ hne_an]
    exact lookup_setKV_self _ _ _
  · exact lookup_setKV_self _ _ _
  · simp
  · simp [List.filter_append, prepTrace_filter_copy, Event.isCopy]

theorem main_success_export_bundle_witness :
    (main wOK "d" "t" "Standard" false 2 "res"
        ⟨fsDemo, [], [], []⟩).1 = Except.ok () ∧
    (main wOK "d" "t" "Standard" false 2 "res"
        ⟨fsDemo, [], [], []⟩).2.fs.lookup
        (pathJoin "res" "model-lstm.aidax") = some [1, 2] ∧
    (main wOK "d" "t" "Standard" false 2 "res"
        ⟨fsDemo, [], [], []⟩).2.fs.lookup
        (pathJoin "res" "model-lstm.nam") = some [3, 4, 5] ∧
    Event.mkdir "res" ∈ (main wOK "d" "t" "Standard" false 2 "res"
        ⟨fsDemo, [], [], []⟩).2.trace ∧
    (main wOK "d" "t" "Standard" false 2 "res"
        ⟨fsDemo, [], [], []⟩).2.trace.filter Event.isCopy =
      [Event.copy (pathJoin "t" "model_keras.json")
         (pathJoin "res" "model-lstm.aidax"),
       Event.copy (pathJoin (pathJoin (pathJoin "t" "Results")
            ("amp" ++ "_" ++ "LSTM-16" ++ "-" ++ (if false then "1" else "0")))
           "model_best.json")
         (pathJoin "res" "model-lstm.nam")] :=
  main_success_export_bundle wOK "d" "t" "Standard" "LSTM-16" false 2 "res"
    fsDemo [] [] [1, 2] [3, 4, 5]
    (by norm_num [wOK, Wave.dur]) (by decide) (by decide) (by decide)
    (by decide) (by decide) (by decide)

end TrainMin
